import Mathlib

/-!
Shallow embedding of the alghazal backend core: the project status
transition table, the project status/progress/assignment handlers
(src/controllers/projectController.ts), the estimation model pre-save
hook (src/models/estimationModel.ts), the estimation handlers
(src/controllers/estimationController.ts) and the quotation creation
handler (quotationController, src/unnamed/part_000).

Error objects mirror the ApiError class: a numeric status code and a
message string.  Fallible handlers are embedded as functions returning
Except ApiError α; a returned error models the thrown ApiError, and an
Except.ok result models the state as persisted by the handler.
Monetary values of the quotation flow are embedded as rationals (the
source uses JavaScript numbers with exact results on the inputs of
interest); estimation item amounts are embedded as naturals (the
schema constrains them to be nonnegative) and profit as an integer.
-/

namespace Alghazal

/-- Statuses of the project workflow: the union of the values appearing
in the projectModel status enumeration and those appearing in the
validStatusTransitions table and the controllers. -/
inductive Status where
  | draft
  | estimation_prepared
  | quotation_sent
  | quotation_approved
  | quotation_rejected
  | lpo_received
  | contract_signed
  | work_started
  | in_progress
  | work_completed
  | quality_check
  | client_handover
  | final_invoice_sent
  | invoice_sent
  | payment_received
  | project_closed
  | on_hold
  | cancelled
  deriving DecidableEq, Repr

/-- The string literal of each status as written in the source. -/
def statusString : Status → String
  | .draft => "draft"
  | .estimation_prepared => "estimation_prepared"
  | .quotation_sent => "quotation_sent"
  | .quotation_approved => "quotation_approved"
  | .quotation_rejected => "quotation_rejected"
  | .lpo_received => "lpo_received"
  | .contract_signed => "contract_signed"
  | .work_started => "work_started"
  | .in_progress => "in_progress"
  | .work_completed => "work_completed"
  | .quality_check => "quality_check"
  | .client_handover => "client_handover"
  | .final_invoice_sent => "final_invoice_sent"
  | .invoice_sent => "invoice_sent"
  | .payment_received => "payment_received"
  | .project_closed => "project_closed"
  | .on_hold => "on_hold"
  | .cancelled => "cancelled"

/-- The validStatusTransitions record of projectController.ts.  A status
that is not a key of the record (lpo_received, invoice_sent,
quotation_rejected) yields the empty list: in the source the lookup
returns undefined and the optional-chained includes call is falsy, so
every transition from such a status is rejected. -/
def validStatusTransitions : Status → List Status
  | .draft => [.estimation_prepared]
  | .estimation_prepared => [.quotation_sent, .on_hold, .cancelled]
  | .quotation_sent =>
      [.quotation_approved, .quotation_rejected, .on_hold, .cancelled]
  | .quotation_approved => [.contract_signed, .on_hold, .cancelled]
  | .contract_signed => [.work_started, .on_hold, .cancelled]
  | .work_started => [.in_progress, .on_hold, .cancelled]
  | .in_progress => [.work_completed, .on_hold, .cancelled]
  | .work_completed => [.quality_check, .on_hold]
  | .quality_check => [.client_handover, .work_completed]
  | .client_handover => [.final_invoice_sent, .on_hold]
  | .final_invoice_sent => [.payment_received, .on_hold]
  | .payment_received => [.project_closed]
  | .on_hold => [.in_progress, .work_started, .cancelled]
  | .cancelled => []
  | .project_closed => []
  | .lpo_received => []
  | .invoice_sent => []
  | .quotation_rejected => []

/-- The ApiError of apiHandlerHelpers: a status code and a message. -/
structure ApiError where
  statusCode : Nat
  message : String
  deriving DecidableEq, Repr

/-- An error escaping a handler: either a thrown ApiError, or a
schema ValidationError raised by the persistence layer when
validation runs - update validators on a findByIdAndUpdate called
with runValidators true, or full-document validation on save. -/
inductive PersistError where
  | api (err : ApiError)
  | schemaValidation (path : String)
  deriving DecidableEq, Repr

/-- Membership in the persisted status enumeration of projectSchema
(projectModel.ts): the schema enum lists exactly these ten values.
The transition table references further statuses (quotation_approved,
quotation_rejected, contract_signed, quality_check, client_handover,
final_invoice_sent, payment_received, project_closed) that schema
validation rejects. -/
def isEnumStatus : Status → Bool
  | .draft => true
  | .estimation_prepared => true
  | .quotation_sent => true
  | .lpo_received => true
  | .work_started => true
  | .in_progress => true
  | .work_completed => true
  | .invoice_sent => true
  | .on_hold => true
  | .cancelled => true
  | _ => false

/-- The fields of a persisted Project relevant to the embedded
handlers (projectModel.ts). -/
structure ProjectRec where
  status : Status
  progress : Nat
  assignedTo : Option Nat
  updatedBy : Option Nat
  deriving DecidableEq, Repr

/-- The error message thrown for a transition absent from the table,
as interpolated in projectController.ts; it names both endpoints. -/
def invalidTransitionMsg (s t : Status) : String :=
  "Invalid status transition from " ++ statusString s ++ " to " ++ statusString t

/-- The updateProjectStatus handler of projectController.ts.  The first
argument is the project looked up by id (none models a failed lookup),
the second the requested status of the body (none models a missing
status field), the third the acting user id. -/
def updateProjectStatus (proj : Option ProjectRec) (status : Option Status)
    (userId : Option Nat) : Except ApiError ProjectRec :=
  match status with
  | none => .error ⟨400, "Status is required"⟩
  | some t =>
    match proj with
    | none => .error ⟨404, "Project not found"⟩
    | some p =>
      if t ∈ validStatusTransitions p.status then
        .ok { p with status := t, updatedBy := userId }
      else
        .error ⟨400, invalidTransitionMsg p.status t⟩

/-- The update payload of the updateProject handler, restricted to the
fields the handler inspects. -/
structure ProjectUpdatePayload where
  progress : Option Int
  status : Option Status
  deriving DecidableEq, Repr

/-- The findByIdAndUpdate application of the updateProject handler:
fields present in the payload replace the stored ones, and updatedBy
is set to the acting user. -/
def applyProjectUpdate (p : ProjectRec) (upd : ProjectUpdatePayload)
    (userId : Option Nat) : ProjectRec :=
  { p with
    status := (upd.status).getD p.status,
    progress := match upd.progress with
                | some pr => pr.toNat
                | none => p.progress,
    updatedBy := userId }

/-- The updateProject handler of projectController.ts: 404 on a
missing project, 400 on an out-of-range progress, 400 on a status
transition absent from the table.  The persist is a findByIdAndUpdate
with runValidators true, so the update validators of the schema run
on the supplied paths: a status outside the schema enumeration raises
a ValidationError and nothing is persisted (a supplied progress has
already passed the handler check, which coincides with the schema
bounds). -/
def updateProject (proj : Option ProjectRec) (upd : ProjectUpdatePayload)
    (userId : Option Nat) : Except PersistError ProjectRec :=
  match proj with
  | none => .error (.api ⟨404, "Project not found"⟩)
  | some p =>
    let progressBad : Bool :=
      match upd.progress with
      | some pr => pr < 0 || pr > 100
      | none => false
    if progressBad then
      .error (.api ⟨400, "Progress must be between 0 and 100"⟩)
    else
      match upd.status with
      | some t =>
        if t ∈ validStatusTransitions p.status then
          if isEnumStatus t then
            .ok (applyProjectUpdate p upd userId)
          else
            .error (.schemaValidation "status")
        else
          .error (.api ⟨400, invalidTransitionMsg p.status t⟩)
      | none => .ok (applyProjectUpdate p upd userId)

/-- A material or terms line item of an estimation
(estimationItemSchema of estimationModel.ts): quantity, unit price and
the stored total. -/
structure EstItem where
  quantity : Nat
  unitPrice : Nat
  total : Nat
  deriving DecidableEq, Repr

/-- A labour line item of an estimation (labourItemSchema): days,
day price and the stored total. -/
structure LabourItem where
  days : Nat
  price : Nat
  total : Nat
  deriving DecidableEq, Repr

/-- The fields of a persisted Estimation relevant to the embedded
handlers (estimationModel.ts). -/
structure EstimationRec where
  materials : List EstItem
  labour : List LabourItem
  termsAndConditions : List EstItem
  estimatedAmount : Nat
  quotationAmount : Option Nat
  commissionAmount : Option Nat
  profit : Option Int
  isChecked : Bool
  isApproved : Bool
  checkedBy : Option Nat
  approvedBy : Option Nat
  approvalComment : Option String
  deriving DecidableEq, Repr

/-- The reduce over material or terms items of the pre-save hook:
sum of the stored totals (item.total with a zero fallback, which on a
natural is the total itself). -/
def sumItemTotals (items : List EstItem) : Nat :=
  items.foldl (fun sum it => sum + it.total) 0

/-- The reduce over labour items of the pre-save hook. -/
def sumLabourTotals (items : List LabourItem) : Nat :=
  items.foldl (fun sum it => sum + it.total) 0

/-- The pre-save hook of estimationModel.ts: estimatedAmount is set to
the sum of the three sections, and profit is set to quotationAmount
minus estimatedAmount minus commissionAmount (with a zero fallback)
when quotationAmount is truthy, i.e. present and nonzero. -/
def estimationPreSave (e : EstimationRec) : EstimationRec :=
  let estimatedAmount :=
    sumItemTotals e.materials + sumLabourTotals e.labour
      + sumItemTotals e.termsAndConditions
  let e1 := { e with estimatedAmount := estimatedAmount }
  match e.quotationAmount with
  | some q =>
    if q ≠ 0 then
      let commission : Nat := e.commissionAmount.getD 0
      let profitVal : Int := (q : Int) - (estimatedAmount : Int) - (commission : Int)
      { e1 with profit := some profitVal }
    else e1
  | none => e1

/-- A material or terms item as supplied to createEstimation, before
the controller computes its total; hasDescription and hasUom model
which optional text fields the request supplies. -/
structure EstItemInput where
  hasDescription : Bool
  hasUom : Bool
  quantity : Nat
  unitPrice : Nat
  deriving DecidableEq, Repr

/-- A labour item as supplied to createEstimation. -/
structure LabourItemInput where
  hasDesignation : Bool
  days : Nat
  price : Nat
  deriving DecidableEq, Repr

/-- Item processing of createEstimation: item.total is set to
quantity times unitPrice. -/
def processEstItem (it : EstItemInput) : EstItem :=
  ⟨it.quantity, it.unitPrice, it.quantity * it.unitPrice⟩

/-- Item processing of createEstimation for labour: item.total is set
to days times price. -/
def processLabourItem (it : LabourItemInput) : LabourItem :=
  ⟨it.days, it.price, it.days * it.price⟩

/-- The createEstimation handler of estimationController.ts, applied to
the estimation store of the persistence layer.  The store maps a
project id to its estimation, mirroring Estimation.findOne on project.
Required scalar fields (dates, paymentDueBy) are modelled as supplied.
The result pairs the store after the call with the response: the
handler rejects a second estimation for a project before any write, so
the store is returned unchanged on every error. -/
def createEstimation (store : Nat → Option EstimationRec) (projectId : Nat)
    (materials : List EstItemInput) (labour : List LabourItemInput)
    (terms : List EstItemInput)
    (quotationAmount commissionAmount : Option Nat) :
    (Nat → Option EstimationRec) × Except ApiError EstimationRec :=
  match store projectId with
  | some _ =>
    (store, .error ⟨400,
      "Only one estimation is allowed per project. Update the existing estimation instead."⟩)
  | none =>
    if materials.any (fun it => !it.hasDescription || !it.hasUom) then
      (store, .error ⟨400,
        "Material items require description, uom, quantity, and unitPrice"⟩)
    else if labour.any (fun it => !it.hasDesignation) then
      (store, .error ⟨400, "Labour items require designation, days, and price"⟩)
    else if terms.any (fun it => !it.hasDescription || !it.hasUom) then
      (store, .error ⟨400,
        "Terms items require description, uom, quantity, and unitPrice"⟩)
    else if materials.isEmpty && labour.isEmpty && terms.isEmpty then
      (store, .error ⟨400,
        "At least one item (materials, labour, or terms) is required"⟩)
    else
      let created := estimationPreSave
        { materials := materials.map processEstItem,
          labour := labour.map processLabourItem,
          termsAndConditions := terms.map processEstItem,
          estimatedAmount := 0,
          quotationAmount := quotationAmount,
          commissionAmount := commissionAmount,
          profit := none,
          isChecked := false,
          isApproved := false,
          checkedBy := none,
          approvedBy := none,
          approvalComment := none }
      (fun pid => if pid = projectId then some created else store pid,
        .ok created)

/-- The approveEstimation handler of estimationController.ts: the
estimation must have been checked, an already approved estimation
cannot be approved again, and otherwise the approval state and
approvedBy are persisted (the save runs the pre-save hook). -/
def approveEstimation (est : Option EstimationRec) (isApproved : Bool)
    (userId : Nat) (comment : Option String) : Except ApiError EstimationRec :=
  match est with
  | none => .error ⟨404, "Estimation not found"⟩
  | some e =>
    if !e.isChecked then
      .error ⟨400, "Estimation must be checked before approval/rejection"⟩
    else if e.isApproved && isApproved then
      .error ⟨400, "Estimation is already approved"⟩
    else
      .ok (estimationPreSave
        { e with
          isApproved := isApproved,
          approvedBy := if isApproved then some userId else none,
          approvalComment := comment })

/-- The outcome of markAsChecked: the response status code, the
persisted estimation, and the project status after the handler (the
handler overwrites it with draft when isChecked is false). -/
structure CheckedOutcome where
  statusCode : Nat
  estimation : EstimationRec
  projectStatus : Status
  deriving DecidableEq, Repr

/-- The markAsChecked handler of estimationController.ts.  projStatus
is the current status of the associated project; mailOk models whether
the mail collaborator succeeds (a failure is caught and logged, so it
never appears in the outcome).  When isChecked is false the project
status is set directly to draft; the estimation save runs the
pre-save hook. -/
def markAsChecked (est : Option EstimationRec) (projStatus : Status)
    (isChecked : Bool) (userId : Nat) (comment : Option String)
    (mailOk : Bool) : Except ApiError CheckedOutcome :=
  match est with
  | none => .error ⟨404, "Estimation not found"⟩
  | some e =>
    if e.isChecked && isChecked then
      .error ⟨400, "Estimation is already checked"⟩
    else
      let e1 := estimationPreSave
        { e with
          isChecked := isChecked,
          checkedBy := if isChecked then some userId else none,
          approvalComment := match comment with
                             | some c => some c
                             | none => e.approvalComment }
      let ps := if !isChecked then Status.draft else projStatus
      -- the mail send happens only when isChecked is true and its
      -- failure is caught, so mailOk does not influence the outcome
      let _ := mailOk
      .ok ⟨200, e1, ps⟩

/-- A material or terms item of an updateEstimation payload: hasUom
models whether the uom field is supplied, total the total supplied in
the payload (the controller overwrites it only when both quantity and
unitPrice are truthy). -/
structure EstItemUpdate where
  hasUom : Bool
  quantity : Nat
  unitPrice : Nat
  total : Nat
  deriving DecidableEq, Repr

/-- A labour item of an updateEstimation payload. -/
structure LabourItemUpdate where
  days : Nat
  price : Nat
  total : Nat
  deriving DecidableEq, Repr

/-- The updateEstimation payload, restricted to the fields the handler
inspects.  Fields set to none are absent from the payload. -/
structure EstUpdatePayload where
  materials : Option (List EstItemUpdate)
  labour : Option (List LabourItemUpdate)
  termsAndConditions : Option (List EstItemUpdate)
  quotationAmount : Option Nat
  commissionAmount : Option Nat
  deriving DecidableEq, Repr

/-- Item processing of updateEstimation for material and terms items:
the total is recomputed only when quantity and unitPrice are both
truthy (nonzero). -/
def processEstItemUpdate (it : EstItemUpdate) : EstItem :=
  if it.quantity ≠ 0 ∧ it.unitPrice ≠ 0 then
    ⟨it.quantity, it.unitPrice, it.quantity * it.unitPrice⟩
  else
    ⟨it.quantity, it.unitPrice, it.total⟩

/-- Item processing of updateEstimation for labour items. -/
def processLabourItemUpdate (it : LabourItemUpdate) : LabourItem :=
  if it.days ≠ 0 ∧ it.price ≠ 0 then
    ⟨it.days, it.price, it.days * it.price⟩
  else
    ⟨it.days, it.price, it.total⟩

/-- The updateEstimation handler of estimationController.ts: an
approved estimation cannot be updated; a checked estimation has its
checked state reset; material and terms items must carry a uom; the
payload fields are applied and the save runs the pre-save hook.  An
error is thrown before the save, so on an error nothing is
persisted. -/
def updateEstimation (est : Option EstimationRec) (upd : EstUpdatePayload) :
    Except ApiError EstimationRec :=
  match est with
  | none => .error ⟨404, "Estimation not found"⟩
  | some e =>
    if e.isApproved then
      .error ⟨400, "Cannot update approved estimation"⟩
    else if (upd.materials.getD []).any (fun it => !it.hasUom) then
      .error ⟨400, "UOM is required for material items"⟩
    else if (upd.termsAndConditions.getD []).any (fun it => !it.hasUom) then
      .error ⟨400, "UOM is required for terms items"⟩
    else
      let e1 :=
        if e.isChecked then
          { e with isChecked := false, checkedBy := none,
                   approvalComment := none }
        else e
      .ok (estimationPreSave
        { e1 with
          materials := match upd.materials with
                       | some ms => ms.map processEstItemUpdate
                       | none => e1.materials,
          labour := match upd.labour with
                    | some ls => ls.map processLabourItemUpdate
                    | none => e1.labour,
          termsAndConditions :=
            match upd.termsAndConditions with
            | some ts => ts.map processEstItemUpdate
            | none => e1.termsAndConditions,
          quotationAmount := (upd.quotationAmount).orElse
                               (fun _ => e1.quotationAmount),
          commissionAmount := (upd.commissionAmount).orElse
                                (fun _ => e1.commissionAmount) })

/-- A quotation line item as supplied to createQuotation. -/
structure QItemInput where
  quantity : ℚ
  unitPrice : ℚ
  deriving DecidableEq, Repr

/-- A stored quotation line item: quantity, unit price and totalPrice. -/
structure QItem where
  quantity : ℚ
  unitPrice : ℚ
  totalPrice : ℚ
  deriving DecidableEq, Repr

/-- The fields of a persisted Quotation read by the embedded handlers.
The quotationModel schema itself is not among the source files; its
stored financial fields are taken from what createQuotation persists,
and netAmount is modelled from the spec: the spec states that invoice
generation returns the stored net amount of the quotation, so the
schema is modelled with a stored netAmount field. -/
structure QuotationRec where
  items : List QItem
  vatPercentage : ℚ
  subtotal : ℚ
  vatAmount : ℚ
  total : ℚ
  netAmount : ℚ
  deriving DecidableEq, Repr

/-- Item processing of createQuotation: item.totalPrice is set to
quantity times unitPrice. -/
def processQItem (it : QItemInput) : QItem :=
  ⟨it.quantity, it.unitPrice, it.quantity * it.unitPrice⟩

/-- The createQuotation handler of the quotation controller
(src/unnamed/part_000), restricted to its financial computation.  The
first argument is the existing quotation of the project, if any.  The
created record stores the processed items, the subtotal as the sum of
the item totalPrice values, vatAmount as subtotal times vatPercentage
over 100, and total as subtotal plus vatAmount.  createQuotation
itself supplies no netAmount; the schema default of the modelled
netAmount field is zero. -/
def createQuotation (existing : Option QuotationRec)
    (items : List QItemInput) (vatPercentage : ℚ) :
    Except ApiError QuotationRec :=
  match existing with
  | some _ => .error ⟨400, "Project already has a quotation"⟩
  | none =>
    let processedItems := items.map processQItem
    let subtotal := processedItems.foldl (fun sum it => sum + it.totalPrice) 0
    let vatAmount := subtotal * (vatPercentage / 100)
    let total := subtotal + vatAmount
    .ok { items := processedItems,
          vatPercentage := vatPercentage,
          subtotal := subtotal,
          vatAmount := vatAmount,
          total := total,
          netAmount := 0 }

/-- The summary object of the invoice data. -/
structure InvoiceSummary where
  amount : ℚ
  vat : ℚ
  totalReceivable : ℚ
  deriving DecidableEq, Repr

/-- The invoice data returned by generateInvoiceData, restricted to
the fields the embedded claims mention. -/
structure InvoiceData where
  summary : InvoiceSummary
  productsCount : Nat
  deriving DecidableEq, Repr

/-- The JavaScript "or zero" fallback on a number: zero when the value
is falsy (zero), the value otherwise. -/
def jsOrZero (x : ℚ) : ℚ :=
  if x = 0 then 0 else x

/-- The generateInvoiceData handler of projectController.ts:
projectIdValid models the Types.ObjectId.isValid check; the project,
quotation and LPO arguments are the corresponding findById and findOne
results (the LPO record carries no field the claims mention, so it is
modelled by its presence).  The summary mirrors the source: amount is
the stored subtotal, vat the stored vatAmount, totalReceivable the
stored netAmount, each with the or-zero fallback. -/
def generateInvoiceData (projectIdValid : Bool) (project : Option ProjectRec)
    (quotation : Option QuotationRec) (lpoExists : Bool) :
    Except ApiError InvoiceData :=
  if !projectIdValid then
    .error ⟨400, "Valid project ID is required"⟩
  else
    match project with
    | none => .error ⟨404, "Project not found"⟩
    | some _ =>
      match quotation with
      | none => .error ⟨404, "Quotation not found for this project"⟩
      | some q =>
        if !lpoExists then
          .error ⟨404, "LPO not found for this project"⟩
        else if q.items.isEmpty then
          .error ⟨400, "Quotation items are required"⟩
        else
          .ok { summary :=
                  { amount := jsOrZero q.subtotal,
                    vat := jsOrZero q.vatAmount,
                    totalReceivable := jsOrZero q.netAmount },
                productsCount := q.items.length }

/-- The outcome of assignProject: the response status code, the
response message, and the persisted project. -/
structure AssignOutcome where
  statusCode : Nat
  message : String
  persisted : ProjectRec
  deriving DecidableEq, Repr

/-- The assignProject handler of projectController.ts: the project and
the engineer must exist; the assignment is saved first, then the mail
collaborator is called inside a try block whose catch still responds
with status 200, so a mail failure never rolls back the persisted
assignment.  The save validates the full document, whose status and
progress are the stored ones: a stored status outside the schema
enumeration (or a stored progress above 100) makes the save throw
before the mail call, persisting nothing. -/
def assignProject (proj : Option ProjectRec) (engineer : Option Nat)
    (mailOk : Bool) : Except PersistError AssignOutcome :=
  match proj with
  | none => .error (.api ⟨400, "Project not found"⟩)
  | some p =>
    match engineer with
    | none => .error (.api ⟨400, "Engineer not found"⟩)
    | some eid =>
      if isEnumStatus p.status && p.progress ≤ 100 then
        let p1 := { p with assignedTo := some eid }
        if mailOk then
          .ok ⟨200, "Project assigned and notification sent successfully", p1⟩
        else
          .ok ⟨200,
            "Project assigned successfully but notification email failed to send",
            p1⟩
      else .error (.schemaValidation "project")

/-- The in-memory status advance that updateProjectProgress saves:
the stored status lpo_received becomes work_started (the stored
progress is a natural, so the source guard progress at least zero
always holds); then work_started with positive stored progress
becomes in_progress. -/
def savedAdvancedStatus (storedStatus : Status) (storedProgress : Nat) :
    Status :=
  let s1 := if storedStatus = Status.lpo_received then Status.work_started
            else storedStatus
  if storedProgress > 0 ∧ s1 = Status.work_started then Status.in_progress
  else s1

/-- The status persisted by updateProjectProgress: the saved advanced
status, overridden by work_completed through the findByIdAndUpdate
payload when the new progress is 100 and the saved status is not
already work_completed. -/
def progressAdvancedStatus (storedStatus : Status)
    (storedProgress newProgress : Nat) : Status :=
  let saved := savedAdvancedStatus storedStatus storedProgress
  if newProgress = 100 ∧ saved ≠ Status.work_completed then
    Status.work_completed
  else saved

/-- The updateProjectProgress handler of projectController.ts: a new
progress above 100 is rejected and a missing project is 404.  The
project.save() validates the full document being saved - the advanced
status and the stored progress - so a saved status outside the schema
enumeration (or a stored progress above 100) throws a ValidationError
and nothing is persisted.  Otherwise the new progress and the
advanced status are persisted without any transition-table check (the
follow-up findByIdAndUpdate runs no validators). -/
def updateProjectProgress (proj : Option ProjectRec) (newProgress : Nat)
    (userId : Option Nat) : Except PersistError ProjectRec :=
  if newProgress > 100 then
    .error (.api ⟨400, "Progress must be between 0 and 100"⟩)
  else
    match proj with
    | none => .error (.api ⟨404, "Project not found"⟩)
    | some p =>
      if isEnumStatus (savedAdvancedStatus p.status p.progress)
          && p.progress ≤ 100 then
        .ok { p with
              status := progressAdvancedStatus p.status p.progress newProgress,
              progress := newProgress,
              updatedBy := userId }
      else .error (.schemaValidation "project")

/-- A progress value of an update payload is absent or inside the
0 to 100 range accepted by the handlers. -/
def progressInRange : Option Int → Prop
  | some pr => 0 ≤ pr ∧ pr ≤ 100
  | none => True

instance : ∀ o, Decidable (progressInRange o)
  | some _ => inferInstanceAs (Decidable (_ ∧ _))
  | none => inferInstanceAs (Decidable True)

/-- One string occurs inside another (on the character lists). -/
def stringMentions (needle hay : String) : Prop :=
  needle.data <:+: hay.data

instance (needle hay : String) : Decidable (stringMentions needle hay) :=
  List.decidableInfix needle.data hay.data

/-- The invalid-transition message names both of its endpoints. -/
theorem invalidTransitionMsg_mentions (s t : Status) :
    stringMentions (statusString s) (invalidTransitionMsg s t)
      ∧ stringMentions (statusString t) (invalidTransitionMsg s t) := by
  constructor
  · refine ⟨("Invalid status transition from ").data,
      (" to " ++ statusString t).data, ?_⟩
    simp [invalidTransitionMsg, String.data_append, List.append_assoc]
  · refine ⟨("Invalid status transition from " ++ statusString s ++ " to ").data,
      [], ?_⟩
    simp [invalidTransitionMsg, String.data_append, List.append_assoc]

/-- Counterexample to claim C1: quotation_approved is listed for
quotation_sent in the transition table, yet updateProject rejects it
with a schema ValidationError instead of persisting it - its
findByIdAndUpdate runs the update validators and quotation_approved
is absent from the schema status enumeration. -/
theorem C1_enum_drift_counterexample :
    Status.quotation_approved ∈ validStatusTransitions Status.quotation_sent
  ∧ updateProject (some (ProjectRec.mk Status.quotation_sent 0 none none))
      (ProjectUpdatePayload.mk none (some Status.quotation_approved)) (some 7)
      = Except.error (PersistError.schemaValidation "status") :=
  ⟨by decide, rfl⟩

/-- Claim C1 (amended): for every project with current status s and
every requested status t, updateProjectStatus, and updateProject when
a status field is supplied (and the payload progress, when supplied,
is in range, so that the earlier progress check does not fire), reject
the request with a 400 validation error naming both s and t whenever t
is not listed for s in the status transition table; whenever t is
listed for s, updateProjectStatus succeeds with persisted status t,
and updateProject succeeds with persisted status t exactly when t
belongs to the persisted status enumeration of the project schema -
for listed targets outside that enumeration its update validators
raise a schema validation error and nothing is persisted. -/
theorem C1_status_transition (p : ProjectRec) (t : Status) (uid : Option Nat)
    (upd : ProjectUpdatePayload) (hs : upd.status = some t)
    (hpr : progressInRange upd.progress) :
    (t ∉ validStatusTransitions p.status →
        updateProjectStatus (some p) (some t) uid
            = Except.error ⟨400, invalidTransitionMsg p.status t⟩
      ∧ updateProject (some p) upd uid
            = Except.error (PersistError.api ⟨400, invalidTransitionMsg p.status t⟩)
      ∧ stringMentions (statusString p.status) (invalidTransitionMsg p.status t)
      ∧ stringMentions (statusString t) (invalidTransitionMsg p.status t))
  ∧ (t ∈ validStatusTransitions p.status →
        (∃ p1, updateProjectStatus (some p) (some t) uid = Except.ok p1
            ∧ p1.status = t)
      ∧ (isEnumStatus t = true →
          ∃ p2, updateProject (some p) upd uid = Except.ok p2
            ∧ p2.status = t)
      ∧ (isEnumStatus t = false →
          updateProject (some p) upd uid
            = Except.error (PersistError.schemaValidation "status"))) := by
  constructor
  · intro hnot
    refine ⟨?_, ?_, (invalidTransitionMsg_mentions p.status t).1,
      (invalidTransitionMsg_mentions p.status t).2⟩
    · simp [updateProjectStatus, hnot]
    · cases hp : upd.progress with
      | none => simp [updateProject, hs, hp, hnot]
      | some pr =>
        rw [hp] at hpr
        obtain ⟨h1, h2⟩ := hpr
        simp [updateProject, hs, hp, hnot, not_lt.mpr h1, not_lt.mpr h2]
  · intro hmem
    refine ⟨?_, ?_, ?_⟩
    · refine ⟨{ p with status := t, updatedBy := uid }, ?_, rfl⟩
      simp [updateProjectStatus, hmem]
    · intro henum
      refine ⟨applyProjectUpdate p upd uid, ?_, ?_⟩
      · cases hp : upd.progress with
        | none => simp [updateProject, hs, hp, hmem, henum]
        | some pr =>
          rw [hp] at hpr
          obtain ⟨h1, h2⟩ := hpr
          simp [updateProject, hs, hp, hmem, henum, not_lt.mpr h1,
            not_lt.mpr h2]
      · simp [applyProjectUpdate, hs]
    · intro henum
      cases hp : upd.progress with
      | none => simp [updateProject, hs, hp, hmem, henum]
      | some pr =>
        rw [hp] at hpr
        obtain ⟨h1, h2⟩ := hpr
        simp [updateProject, hs, hp, hmem, henum, not_lt.mpr h1,
          not_lt.mpr h2]

/-- Witness for C1 at a concrete input: a draft project, requested
status estimation_prepared, payload progress 50. -/
theorem C1_status_transition_witness :
    ((⟨some 50, some Status.estimation_prepared⟩ : ProjectUpdatePayload).status
        = some Status.estimation_prepared)
  ∧ progressInRange
      ((⟨some 50, some Status.estimation_prepared⟩ : ProjectUpdatePayload).progress)
  ∧ ((Status.estimation_prepared ∉
          validStatusTransitions (ProjectRec.mk Status.draft 0 none none).status →
        updateProjectStatus (some (ProjectRec.mk Status.draft 0 none none))
            (some Status.estimation_prepared) (some 7)
            = Except.error ⟨400,
                invalidTransitionMsg (ProjectRec.mk Status.draft 0 none none).status
                  Status.estimation_prepared⟩
      ∧ updateProject (some (ProjectRec.mk Status.draft 0 none none))
            (⟨some 50, some Status.estimation_prepared⟩ : ProjectUpdatePayload)
            (some 7)
            = Except.error (PersistError.api ⟨400,
                invalidTransitionMsg (ProjectRec.mk Status.draft 0 none none).status
                  Status.estimation_prepared⟩)
      ∧ stringMentions
          (statusString (ProjectRec.mk Status.draft 0 none none).status)
          (invalidTransitionMsg (ProjectRec.mk Status.draft 0 none none).status
            Status.estimation_prepared)
      ∧ stringMentions (statusString Status.estimation_prepared)
          (invalidTransitionMsg (ProjectRec.mk Status.draft 0 none none).status
            Status.estimation_prepared))
    ∧ (Status.estimation_prepared ∈
          validStatusTransitions (ProjectRec.mk Status.draft 0 none none).status →
        (∃ p1, updateProjectStatus (some (ProjectRec.mk Status.draft 0 none none))
              (some Status.estimation_prepared) (some 7) = Except.ok p1
            ∧ p1.status = Status.estimation_prepared)
      ∧ (isEnumStatus Status.estimation_prepared = true →
          ∃ p2, updateProject (some (ProjectRec.mk Status.draft 0 none none))
              (⟨some 50, some Status.estimation_prepared⟩ : ProjectUpdatePayload)
              (some 7) = Except.ok p2
            ∧ p2.status = Status.estimation_prepared)
      ∧ (isEnumStatus Status.estimation_prepared = false →
          updateProject (some (ProjectRec.mk Status.draft 0 none none))
              (⟨some 50, some Status.estimation_prepared⟩ : ProjectUpdatePayload)
              (some 7)
            = Except.error (PersistError.schemaValidation "status")))) :=
  ⟨rfl, by decide,
    C1_status_transition (ProjectRec.mk Status.draft 0 none none)
      Status.estimation_prepared (some 7)
      (⟨some 50, some Status.estimation_prepared⟩ : ProjectUpdatePayload)
      rfl (by decide)⟩

/-- Folding addition of a projection over a list equals the
accumulator plus the sum of the mapped list. -/
theorem foldl_add_eq_sum {α M : Type} [AddCommMonoid M] (f : α → M)
    (l : List α) (acc : M) :
    l.foldl (fun sum x => sum + f x) acc = acc + (l.map f).sum := by
  induction l generalizing acc with
  | nil => simp
  | cons hd tl ih => simp [ih, add_assoc]

/-- The reduce of the pre-save hook over material or terms items is
the sum of the stored totals. -/
theorem sumItemTotals_eq_sum (items : List EstItem) :
    sumItemTotals items = (items.map (fun it => it.total)).sum := by
  simpa using foldl_add_eq_sum (fun it => it.total) items 0

/-- The reduce of the pre-save hook over labour items is the sum of
the stored totals. -/
theorem sumLabourTotals_eq_sum (items : List LabourItem) :
    sumLabourTotals items = (items.map (fun it => it.total)).sum := by
  simpa using foldl_add_eq_sum (fun it => it.total) items 0

/-- Counterexample to claim C2: the pre-save hook guards the profit
recomputation by the JavaScript truthiness of quotationAmount, so on
an estimation whose quotationAmount is present but equal to 0 (with
commissionAmount 10, item totals 160 and a stale profit of 999) the
persisted profit stays 999 instead of the recomputed
0 - 160 - 10. -/
theorem C2_profit_zero_quotation_counterexample :
    (estimationPreSave
        (EstimationRec.mk [EstItem.mk 2 50 100] [LabourItem.mk 3 20 60] []
          0 (some 0) (some 10) (some 999) false false none none
          none)).estimatedAmount = 160
  ∧ (EstimationRec.mk [EstItem.mk 2 50 100] [LabourItem.mk 3 20 60] []
        0 (some 0) (some 10) (some 999) false false none none
        none).quotationAmount = some 0
  ∧ (estimationPreSave
        (EstimationRec.mk [EstItem.mk 2 50 100] [LabourItem.mk 3 20 60] []
          0 (some 0) (some 10) (some 999) false false none none
          none)).profit ≠ some ((0 : Int) - 160 - 10) := by
  decide

/-- Claim C2 (amended): whenever an estimation is persisted the
pre-save hook recomputes estimatedAmount as the sum of all material,
labour and terms item totals, which under the stored-total invariant
of the controllers (each material and terms total equals quantity
times unitPrice, each labour total equals days times price) is the sum
of those products; profit is recomputed as quotationAmount minus
estimatedAmount minus commissionAmount whenever quotationAmount is
present and nonzero; in particular createEstimation with
materials quantity 2 unit price 50, labour 3 days at 20, no terms,
quotationAmount 200 and commissionAmount 10 persists estimatedAmount
160 and profit 30. -/
theorem C2_financials (e : EstimationRec)
    (hm : ∀ it ∈ e.materials, it.total = it.quantity * it.unitPrice)
    (hl : ∀ it ∈ e.labour, it.total = it.days * it.price)
    (ht : ∀ it ∈ e.termsAndConditions, it.total = it.quantity * it.unitPrice) :
    (estimationPreSave e).estimatedAmount
        = (e.materials.map (fun it => it.quantity * it.unitPrice)).sum
          + (e.labour.map (fun it => it.days * it.price)).sum
          + (e.termsAndConditions.map (fun it => it.quantity * it.unitPrice)).sum
  ∧ (∀ q, e.quotationAmount = some q → q ≠ 0 →
      (estimationPreSave e).profit
        = some ((q : Int) - ((estimationPreSave e).estimatedAmount : Int)
            - ((e.commissionAmount.getD 0 : Nat) : Int)))
  ∧ ((createEstimation (fun _ => none) 1
        [EstItemInput.mk true true 2 50] [LabourItemInput.mk true 3 20] []
        (some 200) (some 10)).2.toOption.map
          (fun est => (est.estimatedAmount, est.profit)))
      = some (160, some 30) := by
  have hsum : (estimationPreSave e).estimatedAmount
      = (e.materials.map (fun it => it.quantity * it.unitPrice)).sum
        + (e.labour.map (fun it => it.days * it.price)).sum
        + (e.termsAndConditions.map (fun it => it.quantity * it.unitPrice)).sum := by
    have hm2 : e.materials.map (fun it => it.total)
        = e.materials.map (fun it => it.quantity * it.unitPrice) :=
      List.map_congr_left hm
    have hl2 : e.labour.map (fun it => it.total)
        = e.labour.map (fun it => it.days * it.price) :=
      List.map_congr_left hl
    have ht2 : e.termsAndConditions.map (fun it => it.total)
        = e.termsAndConditions.map (fun it => it.quantity * it.unitPrice) :=
      List.map_congr_left ht
    cases hq : e.quotationAmount with
    | none =>
      simp [estimationPreSave, hq, sumItemTotals_eq_sum, sumLabourTotals_eq_sum,
        hm2, hl2, ht2]
    | some q =>
      by_cases hq0 : q = 0
      · simp [estimationPreSave, hq, hq0, sumItemTotals_eq_sum,
          sumLabourTotals_eq_sum, hm2, hl2, ht2]
      · simp [estimationPreSave, hq, hq0, sumItemTotals_eq_sum,
          sumLabourTotals_eq_sum, hm2, hl2, ht2]
  refine ⟨hsum, ?_, by decide⟩
  intro q hq hq0
  simp only [estimationPreSave, hq, hq0, if_true, ne_eq, not_false_iff]

/-- Witness for C2 at a concrete input: the estimation of the spec
example with stored totals already equal to the products. -/
theorem C2_financials_witness :
    (∀ it ∈ [EstItem.mk 2 50 100], it.total = it.quantity * it.unitPrice)
  ∧ (∀ it ∈ [LabourItem.mk 3 20 60], it.total = it.days * it.price)
  ∧ (∀ it ∈ ([] : List EstItem), it.total = it.quantity * it.unitPrice)
  ∧ ((estimationPreSave
        (EstimationRec.mk [EstItem.mk 2 50 100] [LabourItem.mk 3 20 60] []
          0 (some 200) (some 10) none false false none none none)).estimatedAmount
        = ([EstItem.mk 2 50 100].map (fun it => it.quantity * it.unitPrice)).sum
          + ([LabourItem.mk 3 20 60].map (fun it => it.days * it.price)).sum
          + (([] : List EstItem).map (fun it => it.quantity * it.unitPrice)).sum
  ∧ (∀ q, (EstimationRec.mk [EstItem.mk 2 50 100] [LabourItem.mk 3 20 60] []
            0 (some 200) (some 10) none false false none none
            none).quotationAmount = some q → q ≠ 0 →
      (estimationPreSave
        (EstimationRec.mk [EstItem.mk 2 50 100] [LabourItem.mk 3 20 60] []
          0 (some 200) (some 10) none false false none none none)).profit
        = some ((q : Int)
            - ((estimationPreSave
                (EstimationRec.mk [EstItem.mk 2 50 100] [LabourItem.mk 3 20 60] []
                  0 (some 200) (some 10) none false false none none
                  none)).estimatedAmount : Int)
            - (((EstimationRec.mk [EstItem.mk 2 50 100] [LabourItem.mk 3 20 60] []
                  0 (some 200) (some 10) none false false none none
                  none).commissionAmount.getD 0 : Nat) : Int)))
  ∧ ((createEstimation (fun _ => none) 1
        [EstItemInput.mk true true 2 50] [LabourItemInput.mk true 3 20] []
        (some 200) (some 10)).2.toOption.map
          (fun est => (est.estimatedAmount, est.profit)))
      = some (160, some 30)) :=
  ⟨by decide, by decide, by decide,
    C2_financials
      (EstimationRec.mk [EstItem.mk 2 50 100] [LabourItem.mk 3 20 60] []
        0 (some 200) (some 10) none false false none none none)
      (by decide) (by decide) (by decide)⟩

/-- The or-zero fallback is the identity on rationals. -/
theorem jsOrZero_eq (x : ℚ) : jsOrZero x = x := by
  unfold jsOrZero
  split <;> simp_all

/-- The pre-save hook only touches estimatedAmount and profit: the
check and approval fields are preserved. -/
theorem estimationPreSave_flags (e : EstimationRec) :
    (estimationPreSave e).isChecked = e.isChecked
  ∧ (estimationPreSave e).isApproved = e.isApproved
  ∧ (estimationPreSave e).checkedBy = e.checkedBy
  ∧ (estimationPreSave e).approvedBy = e.approvedBy := by
  unfold estimationPreSave
  cases hq : e.quotationAmount with
  | none => simp
  | some q =>
    by_cases hq0 : q = 0
    · simp [hq0]
    · simp [hq0]

/-- Claim C3: generateInvoiceData fails with 404 "Quotation not found
for this project" when the project has no quotation, with 404 "LPO not
found for this project" when it has no LPO, with a 400 error when the
quotation has no line items, and succeeds otherwise with
summary.totalReceivable equal to the stored netAmount of the
quotation. -/
theorem C3_generateInvoiceData (p : ProjectRec) (q : QuotationRec) :
    (∀ lpoExists, generateInvoiceData true (some p) none lpoExists
        = Except.error ⟨404, "Quotation not found for this project"⟩)
  ∧ (generateInvoiceData true (some p) (some q) false
        = Except.error ⟨404, "LPO not found for this project"⟩)
  ∧ (q.items = [] →
      generateInvoiceData true (some p) (some q) true
        = Except.error ⟨400, "Quotation items are required"⟩)
  ∧ (q.items ≠ [] →
      ∃ d, generateInvoiceData true (some p) (some q) true = Except.ok d
        ∧ d.summary.totalReceivable = q.netAmount) := by
  refine ⟨?_, ?_, ?_, ?_⟩
  · intro lpoExists
    simp [generateInvoiceData]
  · simp [generateInvoiceData]
  · intro hitems
    simp [generateInvoiceData, hitems]
  · intro hitems
    refine ⟨{ summary :=
                { amount := jsOrZero q.subtotal,
                  vat := jsOrZero q.vatAmount,
                  totalReceivable := jsOrZero q.netAmount },
              productsCount := q.items.length }, ?_, jsOrZero_eq q.netAmount⟩
    simp [generateInvoiceData, List.isEmpty_iff, hitems]

/-- Witness for C3 at a concrete input: a quotation with one item and
netAmount 1050. -/
theorem C3_generateInvoiceData_witness :
    ((QuotationRec.mk [QItem.mk 200 5 1000] 5 1000 50 1050 1050).items
        ≠ [])
  ∧ (∃ d, generateInvoiceData true
        (some (ProjectRec.mk Status.quotation_sent 0 none none))
        (some (QuotationRec.mk [QItem.mk 200 5 1000] 5 1000 50 1050 1050))
        true = Except.ok d
      ∧ d.summary.totalReceivable
          = (QuotationRec.mk [QItem.mk 200 5 1000] 5 1000 50 1050 1050).netAmount) :=
  ⟨by decide,
    (C3_generateInvoiceData (ProjectRec.mk Status.quotation_sent 0 none none)
      (QuotationRec.mk [QItem.mk 200 5 1000] 5 1000 50 1050 1050)).2.2.2
      (by decide)⟩

/-- Claim C4: approveEstimation on an existing estimation fails with a
400 error when isChecked is false; fails with a 400 error when the
estimation is already approved and approval is requested; and when
isChecked is true and isApproved is false, requesting approval
succeeds, sets isApproved and sets approvedBy to the acting user. -/
theorem C4_approveEstimation (e : EstimationRec) (uid : Nat)
    (c : Option String) :
    (e.isChecked = false → ∀ b,
      approveEstimation (some e) b uid c
        = Except.error ⟨400, "Estimation must be checked before approval/rejection"⟩)
  ∧ (e.isApproved = true →
      ∃ msg, approveEstimation (some e) true uid c = Except.error ⟨400, msg⟩)
  ∧ (e.isChecked = true → e.isApproved = false →
      ∃ e1, approveEstimation (some e) true uid c = Except.ok e1
        ∧ e1.isApproved = true ∧ e1.approvedBy = some uid) := by
  refine ⟨?_, ?_, ?_⟩
  · intro hch b
    simp [approveEstimation, hch]
  · intro happ
    cases hch : e.isChecked with
    | false =>
      exact ⟨"Estimation must be checked before approval/rejection",
        by simp [approveEstimation, hch]⟩
    | true =>
      exact ⟨"Estimation is already approved",
        by simp [approveEstimation, hch, happ]⟩
  · intro hch happ
    refine ⟨estimationPreSave
        { e with isApproved := true, approvedBy := some uid,
                 approvalComment := c }, ?_, ?_, ?_⟩
    · simp [approveEstimation, hch, happ]
    · exact (estimationPreSave_flags _).2.1
    · exact (estimationPreSave_flags _).2.2.2

/-- Witness for C4 at a concrete input: a checked, unapproved
estimation approved by user 7. -/
theorem C4_approveEstimation_witness :
    ((EstimationRec.mk [] [] [] 0 none none none true false none none
        none).isChecked = true)
  ∧ ((EstimationRec.mk [] [] [] 0 none none none true false none none
        none).isApproved = false)
  ∧ (∃ e1, approveEstimation
        (some (EstimationRec.mk [] [] [] 0 none none none true false none none
          none)) true 7 none = Except.ok e1
      ∧ e1.isApproved = true ∧ e1.approvedBy = some 7) :=
  ⟨rfl, rfl,
    (C4_approveEstimation
        (EstimationRec.mk [] [] [] 0 none none none true false none none none)
        7 none).2.2 rfl rfl⟩

/-- Counterexample to claim C5: updateEstimation on a checked,
unapproved estimation does not succeed for every update payload - a
payload whose materials list contains an item without a uom is
rejected with a 400 error before anything is persisted. -/
theorem C5_missing_uom_counterexample :
    ((EstimationRec.mk [] [] [] 0 none none none true false (some 3) none
        none).isChecked = true)
  ∧ ((EstimationRec.mk [] [] [] 0 none none none true false (some 3) none
        none).isApproved = false)
  ∧ updateEstimation
      (some (EstimationRec.mk [] [] [] 0 none none none true false (some 3)
        none none))
      (EstUpdatePayload.mk (some [EstItemUpdate.mk false 1 1 1]) none none
        none none)
      = Except.error ⟨400, "UOM is required for material items"⟩ :=
  ⟨rfl, rfl, rfl⟩

/-- Claim C5 (amended): updateEstimation on an approved estimation
fails with a 400 error and persists nothing; updateEstimation on a
checked, unapproved estimation succeeds for every update payload whose
material and terms items all carry a uom, and the persisted estimation
has isChecked reset to false and checkedBy cleared. -/
theorem C5_updateEstimation (e : EstimationRec) (upd : EstUpdatePayload)
    (hm : ∀ it ∈ upd.materials.getD [], it.hasUom = true)
    (ht : ∀ it ∈ upd.termsAndConditions.getD [], it.hasUom = true) :
    (e.isApproved = true →
      updateEstimation (some e) upd
        = Except.error ⟨400, "Cannot update approved estimation"⟩)
  ∧ (e.isApproved = false → e.isChecked = true →
      ∃ e1, updateEstimation (some e) upd = Except.ok e1
        ∧ e1.isChecked = false ∧ e1.checkedBy = none) := by
  constructor
  · intro happ
    simp [updateEstimation, happ]
  · intro happ hch
    have hma : ((upd.materials.getD []).any fun it => !it.hasUom) = false := by
      rw [List.any_eq_false]
      intro it hit
      simp [hm it hit]
    have hta : ((upd.termsAndConditions.getD []).any fun it => !it.hasUom)
        = false := by
      rw [List.any_eq_false]
      intro it hit
      simp [ht it hit]
    have h1 : updateEstimation (some e) upd
        = Except.ok (estimationPreSave
            { e with
              isChecked := false, checkedBy := none, approvalComment := none,
              materials := match upd.materials with
                           | some ms => ms.map processEstItemUpdate
                           | none => e.materials,
              labour := match upd.labour with
                        | some ls => ls.map processLabourItemUpdate
                        | none => e.labour,
              termsAndConditions :=
                match upd.termsAndConditions with
                | some ts => ts.map processEstItemUpdate
                | none => e.termsAndConditions,
              quotationAmount := (upd.quotationAmount).orElse
                                   (fun _ => e.quotationAmount),
              commissionAmount := (upd.commissionAmount).orElse
                                    (fun _ => e.commissionAmount) }) := by
      simp [updateEstimation, happ, hch, hma, hta]
    refine ⟨_, h1, ?_, ?_⟩
    · exact (estimationPreSave_flags _).1
    · exact (estimationPreSave_flags _).2.2.1

/-- Witness for C5 at a concrete input: a checked, unapproved
estimation updated with one material item that carries a uom. -/
theorem C5_updateEstimation_witness :
    (∀ it ∈ (EstUpdatePayload.mk (some [EstItemUpdate.mk true 2 3 0]) none
        none none none).materials.getD [], it.hasUom = true)
  ∧ (∀ it ∈ (EstUpdatePayload.mk (some [EstItemUpdate.mk true 2 3 0]) none
        none none none).termsAndConditions.getD [], it.hasUom = true)
  ∧ ((EstimationRec.mk [] [] [] 0 none none none true false (some 3) none
        none).isApproved = false)
  ∧ ((EstimationRec.mk [] [] [] 0 none none none true false (some 3) none
        none).isChecked = true)
  ∧ (∃ e1, updateEstimation
        (some (EstimationRec.mk [] [] [] 0 none none none true false (some 3)
          none none))
        (EstUpdatePayload.mk (some [EstItemUpdate.mk true 2 3 0]) none none
          none none)
        = Except.ok e1
      ∧ e1.isChecked = false ∧ e1.checkedBy = none) :=
  ⟨by decide, by decide, rfl, rfl,
    (C5_updateEstimation
        (EstimationRec.mk [] [] [] 0 none none none true false (some 3) none
          none)
        (EstUpdatePayload.mk (some [EstItemUpdate.mk true 2 3 0]) none none
          none none)
        (by decide) (by decide)).2 rfl rfl⟩

set_option maxRecDepth 4000 in
/-- Counterexample to claim C6: the duplicate-estimation failure is a
400 error, but its message is the only-one-estimation message of the
source, which does not contain the phrase "already has". -/
theorem C6_message_counterexample :
    ((createEstimation
        (fun pid => if pid = 1 then
          some (EstimationRec.mk [] [] [] 0 none none none false false none
            none none)
          else none)
        1 [EstItemInput.mk true true 2 50] [] [] none none).2
      = Except.error ⟨400,
          "Only one estimation is allowed per project. Update the existing estimation instead."⟩)
  ∧ ¬ stringMentions "already has"
      "Only one estimation is allowed per project. Update the existing estimation instead." := by
  constructor
  · rfl
  · decide

/-- Claim C6 (amended): at most one estimation exists per project:
createEstimation for a project that already has an estimation fails
with a 400 error whose message states that only one estimation is
allowed per project, and the estimation store - in particular the
pre-existing estimation - is left entirely unchanged. -/
theorem C6_single_estimation (store : Nat → Option EstimationRec) (pid : Nat)
    (e : EstimationRec) (hex : store pid = some e)
    (mats : List EstItemInput) (labs : List LabourItemInput)
    (terms : List EstItemInput) (qa ca : Option Nat) :
    (createEstimation store pid mats labs terms qa ca).1 = store
  ∧ (createEstimation store pid mats labs terms qa ca).2
      = Except.error ⟨400,
          "Only one estimation is allowed per project. Update the existing estimation instead."⟩ := by
  rw [createEstimation]
  rw [hex]
  exact ⟨rfl, rfl⟩

/-- Witness for C6 at a concrete input: a store holding an estimation
for project 1. -/
theorem C6_single_estimation_witness :
    ((fun pid => if pid = 1 then
        some (EstimationRec.mk [] [] [] 0 none none none false false none
          none none)
        else none) 1
      = some (EstimationRec.mk [] [] [] 0 none none none false false none
          none none))
  ∧ ((createEstimation
        (fun pid => if pid = 1 then
          some (EstimationRec.mk [] [] [] 0 none none none false false none
            none none)
          else none)
        1 [EstItemInput.mk true true 2 50] [] [] none none).1
      = (fun pid => if pid = 1 then
          some (EstimationRec.mk [] [] [] 0 none none none false false none
            none none)
          else none))
  ∧ ((createEstimation
        (fun pid => if pid = 1 then
          some (EstimationRec.mk [] [] [] 0 none none none false false none
            none none)
          else none)
        1 [EstItemInput.mk true true 2 50] [] [] none none).2
      = Except.error ⟨400,
          "Only one estimation is allowed per project. Update the existing estimation instead."⟩) :=
  ⟨rfl,
    (C6_single_estimation
      (fun pid => if pid = 1 then
        some (EstimationRec.mk [] [] [] 0 none none none false false none
          none none)
        else none)
      1 (EstimationRec.mk [] [] [] 0 none none none false false none none
        none)
      rfl [EstItemInput.mk true true 2 50] [] [] none none).1,
    (C6_single_estimation
      (fun pid => if pid = 1 then
        some (EstimationRec.mk [] [] [] 0 none none none false false none
          none none)
        else none)
      1 (EstimationRec.mk [] [] [] 0 none none none false false none none
        none)
      rfl [EstItemInput.mk true true 2 50] [] [] none none).2⟩

/-- Claim C7: for every quotation created, each stored totalPrice is
quantity times unitPrice, the stored subtotal is the sum of the item
totalPrice values, vatAmount is subtotal times vatPercentage over 100,
and total is subtotal plus vatAmount; in particular one item of
quantity 200 at unit price 5 with vatPercentage 5 yields subtotal
1000, vatAmount 50 and total 1050. -/
theorem C7_quotation_financials (items : List QItemInput) (vat : ℚ) :
    (∃ q, createQuotation none items vat = Except.ok q
      ∧ (∀ it ∈ q.items, it.totalPrice = it.quantity * it.unitPrice)
      ∧ q.subtotal = (q.items.map (fun it => it.totalPrice)).sum
      ∧ q.vatAmount = q.subtotal * (vat / 100)
      ∧ q.total = q.subtotal + q.vatAmount)
  ∧ ((createQuotation none [QItemInput.mk 200 5] 5).toOption.map
        (fun q => (q.subtotal, q.vatAmount, q.total)))
      = some (1000, 50, 1050) := by
  constructor
  · refine ⟨_, rfl, ?_, ?_, rfl, rfl⟩
    · intro it hit
      rw [List.mem_map] at hit
      obtain ⟨x, _, hx⟩ := hit
      rw [← hx]
      rfl
    · show (items.map processQItem).foldl (fun sum it => sum + it.totalPrice) 0
          = ((items.map processQItem).map (fun it => it.totalPrice)).sum
      simpa using foldl_add_eq_sum (fun it : QItem => it.totalPrice)
        (items.map processQItem) 0
  · norm_num [createQuotation, processQItem, Except.toOption]

/-- The in-memory advance maps schema-enumeration statuses to
schema-enumeration statuses: it only ever rewrites lpo_received to
work_started and work_started to in_progress, both of which the
enumeration contains. -/
theorem savedAdvancedStatus_enum (s : Status) (prog : Nat)
    (h : isEnumStatus s = true) :
    isEnumStatus (savedAdvancedStatus s prog) = true := by
  cases s <;> by_cases hp : prog > 0 <;>
    simp_all [savedAdvancedStatus, isEnumStatus]

/-- Counterexample to claim C8: on a project whose stored status is
lpo_received and stored progress is positive, the two in-memory
advances chain, so a progress update to 60 persists in_progress, not
work_started. -/
theorem C8_chained_advance_counterexample :
    updateProjectProgress
        (some (ProjectRec.mk Status.lpo_received 50 none none)) 60 none
      = Except.ok (ProjectRec.mk Status.in_progress 60 none none)
  ∧ Status.in_progress ≠ Status.work_started := by
  exact ⟨rfl, by decide⟩

/-- Claim C8 (amended): updateProjectProgress on an existing project
whose stored document passes the save validation (stored status
within the persisted schema enumeration and stored progress at most
100) advances a stored lpo_received status to work_started, and
further to in_progress when the stored progress is positive (the two
advances chain); a stored work_started status with positive stored
progress is advanced to in_progress; and a new progress of 100 always
persists work_completed.  None of these transitions consults the
status transition table: from lpo_received the table allows no
transition at all, yet the update succeeds. -/
theorem C8_progress_auto_transitions (p : ProjectRec) (newProgress : Nat)
    (uid : Option Nat) (hle : newProgress ≤ 100)
    (henum : isEnumStatus p.status = true) (hprog : p.progress ≤ 100) :
    ∃ p1, updateProjectProgress (some p) newProgress uid = Except.ok p1
      ∧ (p.status = Status.lpo_received → p.progress = 0 →
          newProgress ≠ 100 → p1.status = Status.work_started)
      ∧ (p.status = Status.lpo_received → 0 < p.progress →
          newProgress ≠ 100 → p1.status = Status.in_progress)
      ∧ (p.status = Status.work_started → 0 < p.progress →
          newProgress ≠ 100 → p1.status = Status.in_progress)
      ∧ (newProgress = 100 → p1.status = Status.work_completed)
      ∧ (p.status = Status.lpo_received →
          p1.status ∉ validStatusTransitions p.status)
      ∧ p1.progress = newProgress := by
  have hnot : ¬ (newProgress > 100) := not_lt.mpr hle
  have hcond : (isEnumStatus (savedAdvancedStatus p.status p.progress)
      && decide (p.progress ≤ 100)) = true := by
    simp [savedAdvancedStatus_enum p.status p.progress henum, hprog]
  refine ⟨{ p with
            status := progressAdvancedStatus p.status p.progress newProgress,
            progress := newProgress, updatedBy := uid },
    by simp [updateProjectProgress, hnot, hcond], ?_, ?_, ?_, ?_, ?_, rfl⟩
  · intro h1 h2 h3
    simp [progressAdvancedStatus, savedAdvancedStatus, h1, h2, h3]
  · intro h1 h2 h3
    simp [progressAdvancedStatus, savedAdvancedStatus, h1, h2, h3]
  · intro h1 h2 h3
    have hne : p.status ≠ Status.lpo_received := by
      rw [h1]
      decide
    simp [progressAdvancedStatus, savedAdvancedStatus, h1, h2, h3, hne]
  · intro h3
    show progressAdvancedStatus p.status p.progress newProgress
        = Status.work_completed
    have hall : ∀ s prog, progressAdvancedStatus s prog 100
        = Status.work_completed := by
      intro s prog
      by_cases hp : prog > 0 <;> cases s <;>
        simp [progressAdvancedStatus, savedAdvancedStatus, hp]
    rw [h3]
    exact hall p.status p.progress
  · intro h1
    rw [h1]
    simp [validStatusTransitions]

/-- Witness for C8 at a concrete input: a work_started project with
stored progress 10 updated to 60. -/
theorem C8_progress_auto_transitions_witness :
    (60 : Nat) ≤ 100
  ∧ isEnumStatus (ProjectRec.mk Status.work_started 10 none none).status = true
  ∧ (ProjectRec.mk Status.work_started 10 none none).progress ≤ 100
  ∧ (∃ p1, updateProjectProgress
        (some (ProjectRec.mk Status.work_started 10 none none)) 60 (some 7)
        = Except.ok p1
      ∧ ((ProjectRec.mk Status.work_started 10 none none).status
            = Status.lpo_received →
          (ProjectRec.mk Status.work_started 10 none none).progress = 0 →
          (60 : Nat) ≠ 100 → p1.status = Status.work_started)
      ∧ ((ProjectRec.mk Status.work_started 10 none none).status
            = Status.lpo_received →
          0 < (ProjectRec.mk Status.work_started 10 none none).progress →
          (60 : Nat) ≠ 100 → p1.status = Status.in_progress)
      ∧ ((ProjectRec.mk Status.work_started 10 none none).status
            = Status.work_started →
          0 < (ProjectRec.mk Status.work_started 10 none none).progress →
          (60 : Nat) ≠ 100 → p1.status = Status.in_progress)
      ∧ ((60 : Nat) = 100 → p1.status = Status.work_completed)
      ∧ ((ProjectRec.mk Status.work_started 10 none none).status
            = Status.lpo_received →
          p1.status ∉ validStatusTransitions
            (ProjectRec.mk Status.work_started 10 none none).status)
      ∧ p1.progress = 60) :=
  ⟨by decide, by decide, by decide,
    C8_progress_auto_transitions (ProjectRec.mk Status.work_started 10 none none)
      60 (some 7) (by decide) (by decide) (by decide)⟩

/-- Claim C9: a mail collaborator failure during assignProject or
during the checked notification of markAsChecked is caught: the
persisted state change (the assignment, the isChecked flag) is kept
for both mail outcomes and the response status is 200 either way.
The mail call of assignProject sits after the project save, so it is
reached exactly when the stored document passes the save validation;
for such projects both mail outcomes yield the 200 response with the
assignment persisted. -/
theorem C9_mail_best_effort :
    (∀ p eid mailOk, isEnumStatus (p : ProjectRec).status = true →
      p.progress ≤ 100 →
      ∃ r, assignProject (some p) (some (eid : Nat)) mailOk = Except.ok r
        ∧ r.statusCode = 200 ∧ r.persisted.assignedTo = some eid)
  ∧ (∀ e ps uid c mailOk, (e : EstimationRec).isChecked = false →
      ∃ r, markAsChecked (some e) ps true uid c mailOk = Except.ok r
        ∧ r.statusCode = 200 ∧ r.estimation.isChecked = true
        ∧ r.estimation.checkedBy = some uid) := by
  constructor
  · intro p eid mailOk henum hprog
    have hcond : (isEnumStatus p.status && decide (p.progress ≤ 100)) = true := by
      simp [henum, hprog]
    cases mailOk with
    | false =>
      refine ⟨AssignOutcome.mk 200
        "Project assigned successfully but notification email failed to send"
        { p with assignedTo := some eid }, ?_, rfl, rfl⟩
      simp [assignProject, hcond]
    | true =>
      refine ⟨AssignOutcome.mk 200
        "Project assigned and notification sent successfully"
        { p with assignedTo := some eid }, ?_, rfl, rfl⟩
      simp [assignProject, hcond]
  · intro e ps uid c mailOk hch
    refine ⟨CheckedOutcome.mk 200
      (estimationPreSave
        { e with isChecked := true, checkedBy := some uid,
                 approvalComment := match c with
                                    | some cc => some cc
                                    | none => e.approvalComment })
      ps, ?_, rfl, ?_, ?_⟩
    · simp [markAsChecked, hch]
    · exact (estimationPreSave_flags _).1
    · exact (estimationPreSave_flags _).2.2.1

/-- Witness for C9 at concrete inputs: a draft project assigned to
engineer 5 while the mail collaborator fails, and an unchecked
estimation marked checked by user 7 while the mail collaborator
fails. -/
theorem C9_mail_best_effort_witness :
    (isEnumStatus (ProjectRec.mk Status.draft 0 none none).status = true)
  ∧ ((ProjectRec.mk Status.draft 0 none none).progress ≤ 100)
  ∧ (∃ r, assignProject (some (ProjectRec.mk Status.draft 0 none none))
        (some 5) false = Except.ok r
      ∧ r.statusCode = 200 ∧ r.persisted.assignedTo = some 5)
  ∧ ((EstimationRec.mk [] [] [] 0 none none none false false none none
        none).isChecked = false)
  ∧ (∃ r, markAsChecked
        (some (EstimationRec.mk [] [] [] 0 none none none false false none
          none none))
        Status.estimation_prepared true 7 none false = Except.ok r
      ∧ r.statusCode = 200 ∧ r.estimation.isChecked = true
      ∧ r.estimation.checkedBy = some 7) :=
  ⟨rfl, by decide,
    C9_mail_best_effort.1 (ProjectRec.mk Status.draft 0 none none) 5 false
      rfl (by decide),
    rfl,
    C9_mail_best_effort.2
      (EstimationRec.mk [] [] [] 0 none none none false false none none none)
      Status.estimation_prepared 7 none false rfl⟩

/-- Claim C10: for every existing estimation, markAsChecked with
isChecked false succeeds and sets the associated project status
directly to draft regardless of the current project status, and draft
is the target of no edge of the status transition table. -/
theorem C10_uncheck_sets_draft (e : EstimationRec) (ps : Status) (uid : Nat)
    (c : Option String) (mailOk : Bool) :
    (∃ r, markAsChecked (some e) ps false uid c mailOk = Except.ok r
      ∧ r.projectStatus = Status.draft)
  ∧ (∀ s, Status.draft ∉ validStatusTransitions s) := by
  constructor
  · refine ⟨CheckedOutcome.mk 200
      (estimationPreSave
        { e with isChecked := false, checkedBy := none,
                 approvalComment := match c with
                                    | some cc => some cc
                                    | none => e.approvalComment })
      Status.draft, ?_, rfl⟩
    simp [markAsChecked]
  · intro s
    cases s <;> simp [validStatusTransitions]

end Alghazal
